import Mathlib

/-!
Verification of the input-validation core of the tiptv native backend shim
(`src-tauri/src/lib.rs`): the length validator, the character sanitizer, the
composed `greet` command, and the platform-info command.

Strings are modelled as Lean `String` (a list of Unicode scalar values, the
same notion as Rust `char`).  Rust `str::len` is the UTF-8 byte length, which
we compute by summing the UTF-8 encoded size of each scalar value.
-/

/-- UTF-8 encoded size in bytes of a Unicode scalar value.  Rust `str::len`
is the sum of these over the characters of the string. -/
def utf8Size (c : Char) : Nat :=
  if c.toNat < 0x80 then 1
  else if c.toNat < 0x800 then 2
  else if c.toNat < 0x10000 then 3
  else 4

/-- Rust `str::len` on the model: the UTF-8 byte length of a string given as
its list of characters. -/
def utf8Len (l : List Char) : Nat := (l.map utf8Size).sum

/-- Rust `str::chars().count()`: the number of Unicode scalar values. -/
def charCount (s : String) : Nat := s.data.length

/-- Model of Rust `char::is_whitespace`: the Unicode `White_Space` property,
which holds for exactly these 25 code points (U+0009..U+000D, U+0020, U+0085,
U+00A0, U+1680, U+2000..U+200A, U+2028, U+2029, U+202F, U+205F, U+3000). -/
def rust_is_whitespace (c : Char) : Bool :=
  let n := c.toNat
  (0x09 ≤ n && n ≤ 0x0D) || n == 0x20 || n == 0x85 || n == 0xA0 ||
  n == 0x1680 || (0x2000 ≤ n && n ≤ 0x200A) || n == 0x2028 || n == 0x2029 ||
  n == 0x202F || n == 0x205F || n == 0x3000

/-- Model of Rust `char::is_alphanumeric` (Unicode `Alphabetic` or general
category `Nd`/`Nl`/`No`).  The model is exact on the Latin-1 range
(U+0000..U+00FF): ASCII digits and letters, the Latin-1 letters U+00AA, U+00B5,
U+00BA, U+00C0..U+00D6, U+00D8..U+00F6, U+00F8..U+00FF, and the Latin-1
numeric signs U+00B2, U+00B3, U+00B9, U+00BC..U+00BE.  Code points above
U+00FF are classified by large Unicode tables in Rust's standard library; the
model maps them to `false`.  Every theorem below either holds for an arbitrary
classifier or evaluates the classifier only on Latin-1 characters, where the
model agrees with Rust. -/
def rust_is_alphanumeric (c : Char) : Bool :=
  let n := c.toNat
  (0x30 ≤ n && n ≤ 0x39) || (0x41 ≤ n && n ≤ 0x5A) || (0x61 ≤ n && n ≤ 0x7A) ||
  n == 0xAA || n == 0xB5 || n == 0xBA ||
  n == 0xB2 || n == 0xB3 || n == 0xB9 || (0xBC ≤ n && n ≤ 0xBE) ||
  (0xC0 ≤ n && n ≤ 0xD6) || (0xD8 ≤ n && n ≤ 0xF6) || (0xF8 ≤ n && n ≤ 0xFF)

/-- The allow-list test of `sanitize_string`: alphanumeric, whitespace,
hyphen, underscore or period (the filter closure in the source). -/
def isAllowedChar (c : Char) : Bool :=
  rust_is_alphanumeric c || rust_is_whitespace c ||
  c == Char.ofNat 0x2D || c == Char.ofNat 0x5F || c == Char.ofNat 0x2E

/-- `validate_string_length` from `lib.rs`: fails when `input.len()` (the
UTF-8 byte length) exceeds `max_length`, otherwise succeeds with `()`. -/
def validate_string_length (input : String) (max_length : Nat) :
    Except String Unit :=
  if utf8Len input.data > max_length then
    .error ("Input exceeds maximum length of " ++ toString max_length ++
      " characters")
  else
    .ok ()

/-- `sanitize_string` from `lib.rs`: keep exactly the characters on the
allow-list, in order. -/
def sanitize_string (input : String) : String :=
  ⟨input.data.filter isAllowedChar⟩

/-- Rust `str::trim` on the model: drop `char::is_whitespace` characters from
both ends. -/
def trimChars (l : List Char) : List Char :=
  ((l.dropWhile rust_is_whitespace).reverse.dropWhile rust_is_whitespace).reverse

/-- Rust `str::trim` lifted to the string model. -/
def rustTrim (s : String) : String := ⟨trimChars s.data⟩

/-- `greet` from `lib.rs`: validate the raw length against 100, sanitize,
reject when the trimmed sanitized name is empty, otherwise build the
greeting. -/
def greet (name : String) : Except String String :=
  match validate_string_length name 100 with
  | .error e => .error e
  | .ok _ =>
    let sanitized_name := sanitize_string name
    if (rustTrim sanitized_name).data.isEmpty then
      .error "Name cannot be empty"
    else
      .ok ("Hello, " ++ sanitized_name ++ "! Welcome to TIPTV.")

/-- `get_platform_info` from `lib.rs`: returns `Ok` of the compile-time
constant `std::env::consts::OS`, here passed as the parameter `os` since it is
fixed by the build target, not computed by the function. -/
def get_platform_info (os : String) : Except String String :=
  .ok os

/-- The platform identifiers of the supported build targets, as enumerated by
the repository's own test `test_get_platform_info`. -/
def valid_platforms : List String :=
  ["windows", "macos", "linux", "ios", "android"]

/-- Substring test on character lists: `containsSub pat hay` holds when `pat`
occurs contiguously inside `hay`. -/
def containsSub (pat : List Char) : List Char → Bool
  | [] => pat.isEmpty
  | c :: t => pat.isPrefixOf (c :: t) || containsSub pat t

/-- The character U+00E9 (Latin small letter e with acute): one character,
two UTF-8 bytes. -/
def eAcute : Char := Char.ofNat 0xE9

/-- 51 copies of U+00E9: 51 characters, 102 UTF-8 bytes. -/
def fiftyOneEAcute : String := ⟨List.replicate 51 eAcute⟩

/-- 101 copies of the disallowed character U+0040 (commercial at). -/
def oneHundredOneAt : String := ⟨List.replicate 101 (Char.ofNat 0x40)⟩

/-- The injection-attempt input of the repository's XSS test, with the
apostrophe written as U+0027. -/
def xssName : String :=
  "Test<script>alert(" ++ ⟨[Char.ofNat 0x27]⟩ ++ "xss" ++ ⟨[Char.ofNat 0x27]⟩ ++
  ")</script>User"

/- ### Helper lemmas -/

theorem one_le_utf8Size (c : Char) : 1 ≤ utf8Size c := by
  unfold utf8Size
  repeat' split
  all_goals decide

theorem length_le_utf8Len (l : List Char) : l.length ≤ utf8Len l := by
  induction l with
  | nil => simp [utf8Len]
  | cons c t ih =>
    have ih' : t.length ≤ (t.map utf8Size).sum := ih
    have hc := one_le_utf8Size c
    simp only [utf8Len, List.map_cons, List.sum_cons, List.length_cons]
    omega

theorem validate_ok_iff (s : String) (m : Nat) :
    validate_string_length s m = Except.ok () ↔ utf8Len s.data ≤ m := by
  unfold validate_string_length
  split
  · rename_i h
    constructor
    · intro he
      exact absurd he (by simp)
    · omega
  · rename_i h
    constructor
    · intro _
      omega
    · intro _
      rfl

theorem validate_error_of_gt (s : String) (m : Nat) (h : m < utf8Len s.data) :
    validate_string_length s m =
      Except.error ("Input exceeds maximum length of " ++ toString m ++
        " characters") := by
  unfold validate_string_length
  simp [h]

theorem greet_length_error (s : String) (h : 100 < utf8Len s.data) :
    greet s =
      Except.error ("Input exceeds maximum length of " ++ toString 100 ++
        " characters") := by
  unfold greet
  rw [validate_error_of_gt s 100 h]

theorem greet_of_valid (s : String) (h : utf8Len s.data ≤ 100) :
    greet s =
      if (rustTrim (sanitize_string s)).data.isEmpty then
        Except.error "Name cannot be empty"
      else
        Except.ok ("Hello, " ++ sanitize_string s ++ "! Welcome to TIPTV.") := by
  unfold greet
  rw [(validate_ok_iff s 100).mpr h]

theorem trimChars_eq_nil (l : List Char)
    (h : ∀ c ∈ l, rust_is_whitespace c = true) : trimChars l = [] := by
  have hinner : l.dropWhile rust_is_whitespace = [] :=
    List.dropWhile_eq_nil_iff.mpr (by simpa using h)
  unfold trimChars
  rw [hinner]
  simp

theorem sanitize_data (s : String) :
    (sanitize_string s).data = s.data.filter isAllowedChar := rfl

/- ### Claim theorems -/

/-- C1: the claim says `validate_string_length` fails exactly when the
character count exceeds the maximum, but the code measures `input.len()`, the
UTF-8 byte length.  On the one-character string consisting of U+00E9 (two
UTF-8 bytes) with maximum 1, the function fails even though the character
count (1) does not exceed the maximum — and its own error message speaks of
"characters". -/
theorem C1_validate_counts_bytes_not_chars :
    charCount ⟨[eAcute]⟩ = 1 ∧
    utf8Len [eAcute] = 2 ∧
    validate_string_length ⟨[eAcute]⟩ 1 =
      Except.error "Input exceeds maximum length of 1 characters" :=
  ⟨rfl, rfl, rfl⟩

/-- C2: `sanitize_string` is a total function mapping "" to "", its result is
a subsequence of the input (order preserved), every retained character is on
the allow-list with its original multiplicity, and every disallowed character
is dropped entirely rather than replaced. -/
theorem C2_sanitize_allowlist_subsequence (s : String) :
    sanitize_string "" = "" ∧
    (sanitize_string s).data.Sublist s.data ∧
    (∀ c ∈ (sanitize_string s).data, isAllowedChar c = true) ∧
    (∀ c, isAllowedChar c = true →
      (sanitize_string s).data.count c = s.data.count c) ∧
    (∀ c, isAllowedChar c = false → (sanitize_string s).data.count c = 0) := by
  refine ⟨rfl, ?_, ?_, ?_, ?_⟩
  · rw [sanitize_data]
    exact List.filter_sublist s.data
  · intro c hc
    rw [sanitize_data] at hc
    exact (List.mem_filter.mp hc).2
  · intro c hc
    rw [sanitize_data]
    exact List.count_filter (by simpa using hc)
  · intro c hc
    rw [sanitize_data]
    exact List.count_eq_zero.mpr
      (fun hm => by simpa [hc] using (List.mem_filter.mp hm).2)

/-- Witness for C2 at the concrete input "a@b": the allowed character keeps
its count and the disallowed one is dropped. -/
theorem C2_sanitize_allowlist_subsequence_witness :
    (sanitize_string "a@b").data.count (Char.ofNat 0x61) =
      ("a@b" : String).data.count (Char.ofNat 0x61) ∧
    (sanitize_string "a@b").data.count (Char.ofNat 0x40) = 0 :=
  ⟨(C2_sanitize_allowlist_subsequence "a@b").2.2.2.1 (Char.ofNat 0x61)
      (by decide),
   (C2_sanitize_allowlist_subsequence "a@b").2.2.2.2 (Char.ofNat 0x40)
      (by decide)⟩

/-- C6: sanitization is idempotent: filtering an already-filtered string
changes nothing. -/
theorem C6_sanitize_idempotent (s : String) :
    sanitize_string (sanitize_string s) = sanitize_string s := by
  show String.mk ((s.data.filter isAllowedChar).filter isAllowedChar) =
    String.mk (s.data.filter isAllowedChar)
  congr 1
  simp

/-- C3: the claim fails on the code.  The string of 51 copies of U+00E9 has
character count 51 ≤ 100 and its sanitized form is nonempty after trimming
(U+00E9 is alphanumeric), yet `greet` rejects it with the length error:
the length check counts the 102 UTF-8 bytes of the raw input, not its
characters. -/
theorem C3_greet_rejects_within_char_limit :
    charCount fiftyOneEAcute = 51 ∧
    rustTrim (sanitize_string fiftyOneEAcute) ≠ "" ∧
    utf8Len fiftyOneEAcute.data = 102 ∧
    greet fiftyOneEAcute =
      Except.error "Input exceeds maximum length of 100 characters" :=
  ⟨rfl, by decide, rfl, rfl⟩

/-- C4: more than 100 characters force more than 100 UTF-8 bytes, so `greet`
rejects any such input — whatever its content — with the length error, whose
message contains "maximum length". -/
theorem C4_greet_overlong_fails (s : String) (h : 100 < charCount s) :
    greet s = Except.error "Input exceeds maximum length of 100 characters" ∧
    containsSub ("maximum length" : String).data
      ("Input exceeds maximum length of 100 characters" : String).data =
      true := by
  constructor
  · have hb : 100 < utf8Len s.data :=
      lt_of_lt_of_le h (length_le_utf8Len s.data)
    rw [greet_length_error s hb]
    rfl
  · decide

/-- Witness for C4: the repository's own scenario, 101 repeated 'a'. -/
theorem C4_greet_overlong_fails_witness :
    greet ⟨List.replicate 101 (Char.ofNat 0x61)⟩ =
      Except.error "Input exceeds maximum length of 100 characters" :=
  (C4_greet_overlong_fails ⟨List.replicate 101 (Char.ofNat 0x61)⟩
    (by decide)).1

/-- C5 counterexample: 101 copies of the disallowed character U+0040 form a
string consisting entirely of disallowed characters, yet `greet` fails with
the length error — whose message does not contain "empty" — because the
length check runs first. -/
theorem C5_counterexample_length_error_first :
    (∀ c ∈ oneHundredOneAt.data, isAllowedChar c = false) ∧
    greet oneHundredOneAt =
      Except.error "Input exceeds maximum length of 100 characters" ∧
    containsSub ("empty" : String).data
      ("Input exceeds maximum length of 100 characters" : String).data =
      false :=
  ⟨by decide, rfl, by decide⟩

/-- C5 (amended): for inputs within the 100-byte length limit that are empty
or consist entirely of disallowed characters, `greet` fails with the
emptiness error, whose message contains "empty". -/
theorem C5_greet_empty_after_sanitization (s : String)
    (hlen : utf8Len s.data ≤ 100)
    (h : s = "" ∨ ∀ c ∈ s.data, isAllowedChar c = false) :
    greet s = Except.error "Name cannot be empty" ∧
    containsSub ("empty" : String).data
      ("Name cannot be empty" : String).data = true := by
  have hsan : (sanitize_string s).data = [] := by
    rw [sanitize_data]
    rcases h with h | h
    · rw [h]
      rfl
    · exact List.filter_eq_nil_iff.mpr (fun c hc => by simp [h c hc])
  refine ⟨?_, by decide⟩
  rw [greet_of_valid s hlen]
  have htrim : (rustTrim (sanitize_string s)).data = [] := by
    show trimChars (sanitize_string s).data = []
    rw [hsan]
    rfl
  rw [htrim]
  rfl

/-- Witness for C5 at the concrete input "@#", two disallowed characters. -/
theorem C5_greet_empty_after_sanitization_witness :
    greet "@#" = Except.error "Name cannot be empty" :=
  (C5_greet_empty_after_sanitization "@#" (by decide)
    (Or.inr (by decide))).1

/-- C7: on the injection-attempt input of the XSS scenario, `greet` succeeds
and the sanitized name embedded in the greeting is exactly
"TestscriptalertxssscriptUser": every occurrence of the angle brackets,
parentheses, apostrophe and slash is stripped. -/
theorem C7_xss_scenario :
    sanitize_string xssName = "TestscriptalertxssscriptUser" ∧
    greet xssName =
      Except.ok "Hello, TestscriptalertxssscriptUser! Welcome to TIPTV." :=
  ⟨rfl, rfl⟩

/-- C8: `get_platform_info` always succeeds, returning the compile-time OS
identifier unchanged; on every supported build target that identifier belongs
to the fixed enumeration listed in `valid_platforms`. -/
theorem C8_platform_info_in_enumeration (os : String)
    (h : os ∈ valid_platforms) :
    ∃ r, get_platform_info os = Except.ok r ∧ r ∈ valid_platforms :=
  ⟨os, rfl, h⟩

/-- Witness for C8 on the target "linux". -/
theorem C8_platform_info_in_enumeration_witness :
    ∃ r, get_platform_info "linux" = Except.ok r ∧ r ∈ valid_platforms :=
  C8_platform_info_in_enumeration "linux" (by decide)

/-- C9: the three operations are deterministic pure functions of their
arguments: the embedding takes no state parameter, so two invocations on
equal inputs yield equal results (same success value or same error). -/
theorem C9_operations_deterministic (s t : String) (m : Nat) (h : s = t) :
    validate_string_length s m = validate_string_length t m ∧
    sanitize_string s = sanitize_string t ∧
    greet s = greet t := by
  subst h
  exact ⟨rfl, rfl, rfl⟩

/-- Witness for C9 at the input "Test User" with maximum 100. -/
theorem C9_operations_deterministic_witness :
    validate_string_length "Test User" 100 =
      validate_string_length "Test User" 100 ∧
    sanitize_string "Test User" = sanitize_string "Test User" ∧
    greet "Test User" = greet "Test User" :=
  C9_operations_deterministic "Test User" "Test User" 100 rfl

/-- C10: within the length limit, a sanitized name that is nonempty but
consists only of whitespace is rejected with the emptiness error (whose
message contains "empty"), because the emptiness check trims; and every
successful greeting embeds the sanitized name untrimmed, with its leading and
trailing whitespace intact. -/
theorem C10_whitespace_trim_and_untrimmed_output :
    (∀ s, utf8Len s.data ≤ 100 →
      sanitize_string s ≠ "" →
      (∀ c ∈ (sanitize_string s).data, rust_is_whitespace c = true) →
      greet s = Except.error "Name cannot be empty" ∧
      containsSub ("empty" : String).data
        ("Name cannot be empty" : String).data = true) ∧
    (∀ s r, greet s = Except.ok r →
      r = "Hello, " ++ sanitize_string s ++ "! Welcome to TIPTV.") := by
  constructor
  · intro s hlen _ hws
    refine ⟨?_, by decide⟩
    rw [greet_of_valid s hlen]
    have htrim : (rustTrim (sanitize_string s)).data = [] := by
      show trimChars (sanitize_string s).data = []
      exact trimChars_eq_nil _ hws
    rw [htrim]
    rfl
  · intro s r h
    unfold greet at h
    split at h
    · exact absurd h (by simp)
    · have h' :
        (if (rustTrim (sanitize_string s)).data.isEmpty then
          Except.error "Name cannot be empty"
        else
          Except.ok ("Hello, " ++ sanitize_string s ++ "! Welcome to TIPTV."))
          = Except.ok r := h
      split at h'
      · exact absurd h' (by simp)
      · exact (Except.ok.inj h').symm

/-- Witness for C10: "@ @" sanitizes to a single space and is rejected as
empty; " Bob " keeps its surrounding whitespace inside the greeting. -/
theorem C10_whitespace_trim_and_untrimmed_output_witness :
    greet "@ @" = Except.error "Name cannot be empty" ∧
    "Hello,  Bob ! Welcome to TIPTV." =
      "Hello, " ++ sanitize_string " Bob " ++ "! Welcome to TIPTV." :=
  ⟨(C10_whitespace_trim_and_untrimmed_output.1 "@ @" (by decide) (by decide)
      (by decide)).1,
   C10_whitespace_trim_and_untrimmed_output.2 " Bob "
      "Hello,  Bob ! Welcome to TIPTV." (by rfl)⟩
